import Mathlib

/-!
Shallow embedding of the data-preparation pipeline in `project.py`
(Zenith Bank dashboard).  The pipeline is: load the two CSV tables,
normalize column names, left-merge spends onto customers by
`customer_id`, derive `age` / `age_group` / coerced `spend`, apply the
sidebar default filters, convert to INR, and aggregate per page.

Modelling conventions:
* A table is a list of records plus a `Schema` of Booleans recording
  which optional columns are present (pandas column presence).
* A cell that pandas would hold as NaN/NaT/None is `Option.none`.
* `pd.to_numeric(x, errors := coerce)` is modelled by storing the parse
  result (`Option ℚ` / `Option Int`) directly in the record.
* Dates: `dobDays` is the integer `(today - dob).days` for a parsed
  birth date, `none` when the dob cell is missing or unparsable (NaT).
* Accessing a missing column (`df[c]` with `c` absent) is a pandas
  `KeyError`; stages that can do that return `Except String`.
-/

namespace Banking

/-- A spend (fact) record after column-name normalization.  `spendRaw`
is the `to_numeric` parse result of the raw spend cell: `none` models an
unparsable value such as the string N/A (pandas NaN). -/
structure SpendRec where
  customer_id : Int := 0
  spendRaw : Option ℚ := none
  category : Option String := none
  payment_type : Option String := none
  deriving Repr, DecidableEq

/-- A customer (dimension) record after column-name normalization.
`marital` is the value of the first column whose name contains the
substring marital, if such a column exists. -/
structure CustRec where
  customer_id : Int := 0
  city : Option String := none
  occupation : Option String := none
  gender : Option String := none
  marital : Option String := none
  dobDays : Option Int := none
  age_groupRaw : Option String := none
  ageRaw : Option Int := none
  deriving Repr, DecidableEq

/-- A merged row (spend fields plus customer fields); the customer-side
fields are all `none` when the spend row found no customer match, as in
a pandas left merge. -/
structure Row where
  customer_id : Int := 0
  spendRaw : Option ℚ := none
  category : Option String := none
  payment_type : Option String := none
  city : Option String := none
  occupation : Option String := none
  gender : Option String := none
  marital : Option String := none
  dobDays : Option Int := none
  age_groupRaw : Option String := none
  ageRaw : Option Int := none
  deriving Repr, DecidableEq

/-- Build a merged row from a spend record and an optional matched
customer record. -/
def mkRow (sp : SpendRec) (c : Option CustRec) : Row :=
  { customer_id := sp.customer_id
    spendRaw := sp.spendRaw
    category := sp.category
    payment_type := sp.payment_type
    city := c.bind (fun x => x.city)
    occupation := c.bind (fun x => x.occupation)
    gender := c.bind (fun x => x.gender)
    marital := c.bind (fun x => x.marital)
    dobDays := c.bind (fun x => x.dobDays)
    age_groupRaw := c.bind (fun x => x.age_groupRaw)
    ageRaw := c.bind (fun x => x.ageRaw) }

/-- The rows a single spend record contributes to
`pd.merge(spends, customers, on = customer_id, how = left)`: one row per
matching customer row (in customer-table order), or a single
null-extended row when no customer matches. -/
def matchRows (sp : SpendRec) (customers : List CustRec) : List Row :=
  match customers.filter (fun c => c.customer_id == sp.customer_id) with
  | [] => [mkRow sp none]
  | c :: cs => (c :: cs).map (fun c => mkRow sp (some c))

/-- `pd.merge(spends, customers, on = customer_id, how = left)`:
left-row order preserved; every matching customer row produces an
output row. -/
def leftMerge (spends : List SpendRec) (customers : List CustRec) : List Row :=
  spends.flatMap (fun sp => matchRows sp customers)

/-- Which optional columns are present in the merged frame. -/
structure Schema where
  hasDob : Bool := false
  hasAgeGroup : Bool := false
  hasAge : Bool := false
  hasSpend : Bool := false
  hasCity : Bool := false
  hasOccupation : Bool := false
  hasCategory : Bool := false
  hasGender : Bool := false
  hasPaymentType : Bool := false
  hasMarital : Bool := false
  deriving Repr, DecidableEq

/-- The static lookup of `load_data` (line 78):
`mapping = [21-24 to 22, 25-34 to 29, 35-45 to 39, 45+ to 50]`; a label
outside the dict maps to NaN under `Series.map`. -/
def ageFromLabel (lab : String) : Option Int :=
  if lab = "21-24" then some 22
  else if lab = "25-34" then some 29
  else if lab = "35-45" then some 39
  else if lab = "45+" then some 50
  else none

/-- `pd.cut(age, bins := [0,20,24,34,45,120], labels := [...], right := True)`
(lines 73-75): right-closed intervals; a value in no interval (including
values at or below 0 and above 120) gets NaN. -/
def ageGroupOfAge : Option Int → Option String
  | none => none
  | some a =>
    if 0 < a ∧ a ≤ 20 then some "<20"
    else if 20 < a ∧ a ≤ 24 then some "21-24"
    else if 24 < a ∧ a ≤ 34 then some "25-34"
    else if 34 < a ∧ a ≤ 45 then some "35-45"
    else if 45 < a ∧ a ≤ 120 then some "45+"
    else none

/-- The bin table of `pd.cut` in `load_data`: (lower-open bound,
upper-closed bound, label). -/
def cutBins : List (Int × Int × String) :=
  [(0, 20, "<20"), (20, 24, "21-24"), (24, 34, "25-34"),
   (34, 45, "35-45"), (45, 120, "45+")]

/-- The `age` column value computed by `load_data` (lines 68-84) for one
row: from dob when a dob column exists (`(today - dob).days // 365`,
pandas floor division, hence `Int.fdiv`); else from the coarse label via
`ageFromLabel`; else NaN when no age column existed; else the raw
(already `to_numeric`-coerced) age cell. -/
def deriveAge (s : Schema) (r : Row) : Option Int :=
  if s.hasDob then r.dobDays.map (fun d => Int.fdiv d 365)
  else if s.hasAgeGroup then r.age_groupRaw.bind ageFromLabel
  else if !s.hasAge then none
  else r.ageRaw

/-- The `age_group` column value computed by `load_data` for one row:
recomputed by `pd.cut` of the derived age when a dob column exists; kept
verbatim from the CSV when only a coarse label column exists; `None`
when the third branch created the column; meaningless (column absent)
otherwise. -/
def deriveAgeGroup (s : Schema) (r : Row) : Option String :=
  if s.hasDob then ageGroupOfAge (deriveAge s r)
  else if s.hasAgeGroup then r.age_groupRaw
  else none

/-- One enriched record as produced by `load_data`. -/
structure ERow where
  customer_id : Int := 0
  spend : ℚ := 0
  category : Option String := none
  payment_type : Option String := none
  city : Option String := none
  occupation : Option String := none
  gender : Option String := none
  marital_status : Option String := none
  age : Option Int := none
  age_group : Option String := none
  deriving Repr, DecidableEq

/-- Column presence in the enriched frame (the `age` and `spend` columns
always exist once `load_data` returns, so they carry no flag). -/
structure ESchema where
  hasCity : Bool := false
  hasOccupation : Bool := false
  hasCategory : Bool := false
  hasGender : Bool := false
  hasPaymentType : Bool := false
  hasMarital : Bool := false
  hasAgeGroupCol : Bool := false
  deriving Repr, DecidableEq

/-- Schema of the frame returned by `load_data`: passthrough flags, plus
the `age_group` column exists iff a dob column recomputed it, a coarse
label column supplied it, or the fallback branch created it (which fires
exactly when none of dob / age_group / age were present). -/
def outSchema (s : Schema) : ESchema :=
  { hasCity := s.hasCity
    hasOccupation := s.hasOccupation
    hasCategory := s.hasCategory
    hasGender := s.hasGender
    hasPaymentType := s.hasPaymentType
    hasMarital := s.hasMarital
    hasAgeGroupCol := s.hasDob || s.hasAgeGroup || !s.hasAge }

/-- Per-row field derivation of `load_data` (lines 61-87): marital
rename (value passthrough under the canonical name), age and age_group
branches, and the spend coercion
`pd.to_numeric(spend, errors := coerce).fillna(0)` = parse result with
NaN replaced by 0. -/
def deriveRow (s : Schema) (r : Row) : ERow :=
  { customer_id := r.customer_id
    spend := r.spendRaw.getD 0
    category := r.category
    payment_type := r.payment_type
    city := r.city
    occupation := r.occupation
    gender := r.gender
    marital_status := r.marital
    age := deriveAge s r
    age_group := deriveAgeGroup s r }

/-- The derivation stage of `load_data`.  The age / age_group / marital
computations are all guarded by column-presence tests and never fail,
but line 87 accesses `df[spend]` unconditionally: when no spend column
exists the stage raises a pandas `KeyError`.  (In the script the error
is raised after the age block has run; since the age block cannot fail,
checking the precondition first is observationally identical.) -/
def deriveStage (s : Schema) (rows : List Row) : Except String (ESchema × List ERow) :=
  if s.hasSpend then .ok (outSchema s, rows.map (deriveRow s)) else .error "KeyError: spend"

/-! ### Sidebar filter block (module level, lines 99-123) -/

/-- `sorted(series.dropna().unique())` as a membership set: the distinct
non-null values of a column (sort order is irrelevant to `isin`). -/
def distinctNonNull (f : ERow → Option String) (rows : List ERow) : List String :=
  (rows.filterMap f).dedup

/-- `df[df[col].isin(sel)]`: a row passes iff its value is non-null and
belongs to the selection (pandas `isin` is false on NaN). -/
def filterBySel (f : ERow → Option String) (sel : List String) (rows : List ERow) :
    List ERow :=
  rows.filter (fun r =>
    match f r with
    | some v => decide (v ∈ sel)
    | none => false)

/-- The non-null ages of the current frame. -/
def ageList (rows : List ERow) : List Int :=
  rows.filterMap (fun r => r.age)

/-- Minimum of a list of integers, `none` on the empty list
(`df[age].min()`). -/
def listMin : List Int → Option Int
  | [] => none
  | a :: as => some (as.foldl min a)

/-- Maximum of a list of integers, `none` on the empty list
(`df[age].max()`). -/
def listMax : List Int → Option Int
  | [] => none
  | a :: as => some (as.foldl max a)

/-- Lines 118-123: when some age is non-null, the slider default is the
full range `(min, max)` and `df[age].between(lo, hi)` keeps exactly the
rows whose age is non-null and inside the inclusive range (`between` is
false on NaN); when every age is null the block is skipped. -/
def ageFilterStep (rows : List ERow) : List ERow :=
  match listMin (ageList rows), listMax (ageList rows) with
  | some lo, some hi =>
    rows.filter (fun r =>
      match r.age with
      | some a => decide (lo ≤ a ∧ a ≤ hi)
      | none => false)
  | _, _ => rows

/-- The whole sidebar filter block executed with its default selections:
each multiselect defaults to every distinct non-null value of the
current frame, each guarded by column presence, applied in program
order; then the age-slider step. -/
def defaultFilter (s : ESchema) (rows0 : List ERow) : List ERow :=
  let rows1 :=
    if s.hasCity then
      filterBySel (fun r => r.city) (distinctNonNull (fun r => r.city) rows0) rows0
    else rows0
  let rows2 :=
    if s.hasOccupation then
      filterBySel (fun r => r.occupation)
        (distinctNonNull (fun r => r.occupation) rows1) rows1
    else rows1
  let rows3 :=
    if s.hasCategory then
      filterBySel (fun r => r.category)
        (distinctNonNull (fun r => r.category) rows2) rows2
    else rows2
  ageFilterStep rows3

/-- Specification-side description of the default filter, for the
refinement statement: drop the rows with a null value in a present
categorical dimension, then, when any surviving row has a non-null age,
drop the null-age rows. -/
def keepNonNull (s : ESchema) (r : ERow) : Bool :=
  ((!s.hasCity || r.city.isSome) && (!s.hasOccupation || r.occupation.isSome)) &&
    (!s.hasCategory || r.category.isSome)

/-- The claimed-identity filter, as the spec words it after amendment:
see `keepNonNull`. -/
def defaultFilterSpec (s : ESchema) (rows : List ERow) : List ERow :=
  let base := rows.filter (keepNonNull s)
  if base.any (fun r => r.age.isSome) then base.filter (fun r => r.age.isSome) else base

/-! ### Currency conversion and aggregation pages -/

/-- Line 128. -/
def USD_TO_INR : ℚ := 83

/-- A final record: enriched record plus the `spend_inr` column. -/
structure FRow where
  row : ERow
  spend_inr : ℚ
  deriving Repr, DecidableEq

/-- Line 129: `df[spend_inr] = df[spend] * USD_TO_INR`. -/
def addSpendInr (rows : List ERow) : List FRow :=
  rows.map (fun r => { row := r, spend_inr := r.spend * USD_TO_INR })

/-- `df.groupby(col)[spend_inr].sum()` for a single string column:
pandas drops null group keys; one output pair per distinct non-null
key. -/
def groupSumBy (key : FRow → Option String) (rows : List FRow) : List (String × ℚ) :=
  ((rows.filterMap key).dedup).map (fun k =>
    (k, ((rows.filter (fun r => decide (key r = some k))).map
          (fun r => r.spend_inr)).sum))

/-- The four-column group key of the Spend-by-Marital-Status page; null
in any key column drops the row from the grouping (pandas default). -/
def key4 (r : FRow) : Option (String × String × String × String) :=
  match r.row.city, r.row.occupation, r.row.category, r.row.marital_status with
  | some a, some b, some c, some d => some (a, b, c, d)
  | _, _, _, _ => none

/-- `df.groupby([city, occupation, category, marital_status])[spend_inr].sum()`. -/
def groupSum4 (rows : List FRow) : List ((String × String × String × String) × ℚ) :=
  ((rows.filterMap key4).dedup).map (fun k =>
    (k, ((rows.filter (fun r => decide (key4 r = some k))).map
          (fun r => r.spend_inr)).sum))

/-- The (occupation, payment_type) group key of the payment page. -/
def key2 (r : FRow) : Option (String × String) :=
  match r.row.occupation, r.row.payment_type with
  | some o, some p => some (o, p)
  | _, _ => none

/-- `df.groupby([occupation, payment_type]).agg(size, sum)` of the
payment page. -/
def groupCountSum (rows : List FRow) : List ((String × String) × Nat × ℚ) :=
  ((rows.filterMap key2).dedup).map (fun k =>
    (k, (rows.filter (fun r => decide (key2 r = some k))).length,
        ((rows.filter (fun r => decide (key2 r = some k))).map
          (fun r => r.spend_inr)).sum))

/-- Lines 184-190, Spend by Marital Status: the groupby on
city / occupation / category / marital_status is NOT guarded by any
column-presence test, so it raises `KeyError` when any of the four
columns is absent. -/
def maritalPage (s : ESchema) (rows : List FRow) :
    Except String (List ((String × String × String × String) × ℚ)) :=
  if s.hasCity && s.hasOccupation && s.hasCategory && s.hasMarital then
    .ok (groupSum4 rows)
  else .error "KeyError"

/-- Lines 141-152, Spend by Gender: guarded by
`if gender in df.columns`; the chart is omitted, no error, when the
column is absent. -/
def genderPage (s : ESchema) (rows : List FRow) : Option (List (String × ℚ)) :=
  if s.hasGender then some (groupSumBy (fun r => r.row.gender) rows) else none

/-- Lines 269-271, Total Spend by Occupation: unguarded
`df.groupby(occupation)`, raising `KeyError` when the column is
absent. -/
def occupationPage (s : ESchema) (rows : List FRow) :
    Except String (List (String × ℚ)) :=
  if s.hasOccupation then .ok (groupSumBy (fun r => r.row.occupation) rows)
  else .error "KeyError: occupation"

/-- Lines 219-267, Transactions by Payment Type: the whole chart is
guarded by `if payment_type in df.columns` (omitted, no error, when
absent); inside the guard the groupby also needs the occupation
column. -/
def paymentPage (s : ESchema) (rows : List FRow) :
    Except String (Option (List ((String × String) × Nat × ℚ))) :=
  if s.hasPaymentType then
    if s.hasOccupation then .ok (some (groupCountSum rows))
    else .error "KeyError: occupation"
  else .ok none

/-- Row count (`df.shape[0]`, the count side of every aggregate). -/
def countAgg (rows : List ERow) : Nat := rows.length

/-- Total of the coerced spend column (`df[spend].sum()`). -/
def totalSpend (rows : List ERow) : ℚ := (rows.map (fun e => e.spend)).sum

/-! ### List helper lemmas -/

lemma foldl_min_le_init : ∀ (l : List Int) (a : Int), l.foldl min a ≤ a := by
  intro l
  induction l with
  | nil => intro a; simp
  | cons b l ih =>
    intro a
    simp only [List.foldl_cons]
    exact le_trans (ih (min a b)) (min_le_left a b)

lemma foldl_min_le_mem : ∀ (l : List Int) (a x : Int), x ∈ l → l.foldl min a ≤ x := by
  intro l
  induction l with
  | nil => intro a x hx; cases hx
  | cons b l ih =>
    intro a x hx
    simp only [List.foldl_cons]
    rcases List.mem_cons.mp hx with rfl | h2
    · exact le_trans (foldl_min_le_init l (min a x)) (min_le_right a x)
    · exact ih (min a b) x h2

lemma le_foldl_max_init : ∀ (l : List Int) (a : Int), a ≤ l.foldl max a := by
  intro l
  induction l with
  | nil => intro a; simp
  | cons b l ih =>
    intro a
    simp only [List.foldl_cons]
    exact le_trans (le_max_left a b) (ih (max a b))

lemma le_foldl_max_mem : ∀ (l : List Int) (a x : Int), x ∈ l → x ≤ l.foldl max a := by
  intro l
  induction l with
  | nil => intro a x hx; cases hx
  | cons b l ih =>
    intro a x hx
    simp only [List.foldl_cons]
    rcases List.mem_cons.mp hx with rfl | h2
    · exact le_trans (le_max_right a x) (le_foldl_max_init l (max a x))
    · exact ih (max a b) x h2

lemma listMin_le {x : Int} {xs : List Int} {b : Int} (hb : b ∈ x :: xs) :
    xs.foldl min x ≤ b := by
  rcases List.mem_cons.mp hb with rfl | h2
  · exact foldl_min_le_init xs b
  · exact foldl_min_le_mem xs x b h2

lemma le_listMax {x : Int} {xs : List Int} {b : Int} (hb : b ∈ x :: xs) :
    b ≤ xs.foldl max x := by
  rcases List.mem_cons.mp hb with rfl | h2
  · exact le_foldl_max_init xs b
  · exact le_foldl_max_mem xs x b h2

/-! ### C1: left-join row count -/

lemma filter_by_id_eq_nil {l : List CustRec} {x : Int}
    (h : x ∉ l.map (fun c => c.customer_id)) :
    l.filter (fun c => c.customer_id == x) = [] := by
  rw [List.filter_eq_nil_iff]
  intro c hc hcx
  exact h (List.mem_map.mpr ⟨c, hc, by simpa using hcx⟩)

lemma length_filter_by_id_le_one {l : List CustRec}
    (h : (l.map (fun c => c.customer_id)).Nodup) (x : Int) :
    (l.filter (fun c => c.customer_id == x)).length ≤ 1 := by
  induction l with
  | nil => simp
  | cons a l ih =>
    simp only [List.map_cons, List.nodup_cons] at h
    by_cases hx : a.customer_id = x
    · rw [List.filter_cons_of_pos (by simpa using hx)]
      have hnil : l.filter (fun c => c.customer_id == x) = [] :=
        filter_by_id_eq_nil (hx ▸ h.1)
      simp [hnil]
    · rw [List.filter_cons_of_neg (by simpa using hx)]
      exact ih h.2

lemma length_matchRows {customers : List CustRec}
    (h : (customers.map (fun c => c.customer_id)).Nodup) (sp : SpendRec) :
    (matchRows sp customers).length = 1 := by
  have hle := length_filter_by_id_le_one h sp.customer_id
  simp only [matchRows]
  rcases hf : customers.filter (fun c => c.customer_id == sp.customer_id) with _ | ⟨c, cs⟩
  · rw [hf]
    rfl
  · rw [hf]
    rw [hf] at hle
    simp only [List.length_cons] at hle
    have hcs : cs = [] := by
      cases cs with
      | nil => rfl
      | cons d ds => simp at hle
    subst hcs
    simp

/-- C1 counterexample: pandas left merge emits one row per matching
customer row, so a customer table with a duplicated identifier yields
two output rows for a single spend row, not one (no first-match
selection happens). -/
theorem C1_counterexample :
    (leftMerge [{ customer_id := 1, spendRaw := some 5 }]
        [{ customer_id := 1, city := some "Delhi" },
         { customer_id := 1, city := some "Mumbai" }]).length
      ≠ ([{ customer_id := 1, spendRaw := some 5 }] : List SpendRec).length := by
  decide

/-- C1 (amended): the join of the spend table onto the customer table
produces one output row per (spend row, matching customer row) pair and
one null-extended row for an unmatched spend row; when the customer
identifiers are pairwise distinct (no duplicates) the output row count
equals the spend row count, whether or not spend keys are missing from
the customer table. -/
theorem C1_join_row_count (spends : List SpendRec) (customers : List CustRec)
    (h : (customers.map (fun c => c.customer_id)).Nodup) :
    (leftMerge spends customers).length = spends.length := by
  induction spends with
  | nil => rfl
  | cons sp sps ih =>
    have h1 : leftMerge (sp :: sps) customers
        = matchRows sp customers ++ leftMerge sps customers := by
      simp [leftMerge]
    rw [h1, List.length_append, length_matchRows h sp, ih, List.length_cons]
    omega

/-- Witness for C1: a two-row spend table against a duplicate-free
customer table (one key matching, one missing) keeps its row count. -/
theorem C1_join_row_count_witness :
    (([{ customer_id := 1 }, { customer_id := 2 }] : List CustRec).map
        (fun c => c.customer_id)).Nodup ∧
    (leftMerge [{ customer_id := 1 }, { customer_id := 3 }]
        [{ customer_id := 1 }, { customer_id := 2 }]).length
      = ([{ customer_id := 1 }, { customer_id := 3 }] : List SpendRec).length :=
  ⟨by decide, C1_join_row_count _ _ (by decide)⟩

/-! ### C2: the default filter state -/

lemma filterBySel_default (f : ERow → Option String) (rows : List ERow) :
    filterBySel f (distinctNonNull f rows) rows
      = rows.filter (fun r => (f r).isSome) := by
  apply List.filter_congr
  intro r hr
  cases hfr : f r with
  | none => simp [hfr]
  | some v =>
    have hv : v ∈ distinctNonNull f rows := by
      unfold distinctNonNull
      rw [List.mem_dedup]
      exact List.mem_filterMap.mpr ⟨r, hr, hfr⟩
    simp [hfr, hv]

lemma ageFilterStep_eq (l : List ERow) :
    ageFilterStep l
      = if l.any (fun r => r.age.isSome) then l.filter (fun r => r.age.isSome)
        else l := by
  by_cases h : l.any (fun r => r.age.isSome) = true
  · rw [if_pos h]
    obtain ⟨r, hr, hage⟩ := List.any_eq_true.mp h
    obtain ⟨a, ha⟩ := Option.isSome_iff_exists.mp hage
    have hmem : a ∈ ageList l := List.mem_filterMap.mpr ⟨r, hr, ha⟩
    cases l0 : ageList l with
    | nil => rw [l0] at hmem; cases hmem
    | cons x xs =>
      unfold ageFilterStep
      rw [l0]
      simp only [listMin, listMax]
      apply List.filter_congr
      intro r2 hr2
      cases h2 : r2.age with
      | none => simp
      | some b =>
        have hb : b ∈ ageList l := List.mem_filterMap.mpr ⟨r2, hr2, h2⟩
        rw [l0] at hb
        have hlo : xs.foldl min x ≤ b := listMin_le hb
        have hhi : b ≤ xs.foldl max x := le_listMax hb
        simp [hlo, hhi]
  · rw [if_neg h]
    have hnil : ageList l = [] := by
      cases l0 : ageList l with
      | nil => rfl
      | cons x xs =>
        exfalso
        have hx : x ∈ ageList l := by rw [l0]; exact List.mem_cons_self x xs
        obtain ⟨r, hr, hrx⟩ := List.mem_filterMap.mp hx
        exact h (List.any_eq_true.mpr ⟨r, hr, by simp [hrx]⟩)
    unfold ageFilterStep
    rw [hnil]
    rfl

/-- C2 counterexample: a single-row table whose (present) city column is
null.  The default full selection is the set of distinct non-null
cities, which is empty here, and `isin` is false on the null, so the
default filter drops the row: the default filter state is not the
identity on rows with nulls in an active dimension. -/
theorem C2_counterexample :
    defaultFilter { hasCity := true } [{ city := none }]
      ≠ [({ city := none } : ERow)] := by
  decide

/-- C2 (amended): applying the filter block with the full default
selection on every dimension returns the enriched table with exactly
the null-valued rows of active dimensions removed: rows with a null
city, occupation or category (for those of the three columns that are
present) are excluded, and, when any surviving row has a non-null age,
rows with null age are excluded as well; on a table without such nulls
it is the identity. -/
theorem C2_default_filter (s : ESchema) (rows : List ERow) :
    defaultFilter s rows = defaultFilterSpec s rows := by
  have step : ∀ (f : ERow → Option String) (b : Bool) (l : List ERow),
      (if b then filterBySel f (distinctNonNull f l) l else l)
        = l.filter (fun r => !b || (f r).isSome) := by
    intro f b l
    cases b
    · simp
    · simp [filterBySel_default]
  have hL : defaultFilter s rows = ageFilterStep (rows.filter (keepNonNull s)) := by
    simp only [defaultFilter]
    rw [step, step, step, List.filter_filter, List.filter_filter]
    congr 1
    apply List.filter_congr
    intro r _
    unfold keepNonNull
    cases hc : (!s.hasCity || r.city.isSome) <;>
      cases ho : (!s.hasOccupation || r.occupation.isSome) <;>
        cases hk : (!s.hasCategory || r.category.isSome) <;> rfl
  rw [hL, ageFilterStep_eq]
  simp only [defaultFilterSpec]

/-! ### C3: is age_group always recomputed from age? -/

/-- C3 counterexample: with no dob column and a coarse `age_group`
column, `load_data` keeps the CSV label verbatim and only derives `age`
from it.  For a label outside the lookup (here the plausible label
`<20`) the derived age is null, whose bucket is null, while the kept
`age_group` is non-null: the record carries an `age_group` that
disagrees with the bucket containing its age, so `age_group` is not
recomputed from `age`. -/
theorem C3_counterexample :
    (deriveRow { hasAgeGroup := true, hasSpend := true }
        { age_groupRaw := some "<20" }).age_group
      ≠ ageGroupOfAge
          (deriveRow { hasAgeGroup := true, hasSpend := true }
            { age_groupRaw := some "<20" }).age := by
  decide

/-- C3 (amended): when a dob column exists, `age_group` is recomputed
from the numeric age via the fixed right-closed bins, hence a strict
function of `age`; when age is instead derived from a coarse label, the
label is kept as-is, not recomputed, and agreement with the bucket of
the representative age holds exactly for the four recognized labels. -/
theorem C3_age_group_recomputed (sch : Schema) (r : Row) :
    (sch.hasDob = true →
      (deriveRow sch r).age_group = ageGroupOfAge (deriveRow sch r).age) ∧
    (∀ lab : String, sch.hasDob = false → sch.hasAgeGroup = true →
      r.age_groupRaw = some lab →
      (lab = "21-24" ∨ lab = "25-34" ∨ lab = "35-45" ∨ lab = "45+") →
      (deriveRow sch r).age_group = ageGroupOfAge (deriveRow sch r).age) := by
  constructor
  · intro h
    simp [deriveRow, deriveAgeGroup, h]
  · intro lab h1 h2 hr hl
    rcases hl with rfl | rfl | rfl | rfl <;>
      simp [deriveRow, deriveAgeGroup, deriveAge, ageFromLabel, ageGroupOfAge,
        h1, h2, hr]

/-- Witness for C3: a record whose dob lies 10000 days in the past
(age 27) gets the recomputed bucket of its age; and a record carrying
the recognized label 45+ agrees with the bucket of its representative
age 50. -/
theorem C3_age_group_recomputed_witness :
    ((deriveRow { hasDob := true, hasSpend := true }
        { dobDays := some 10000 }).age_group
      = ageGroupOfAge
          (deriveRow { hasDob := true, hasSpend := true }
            { dobDays := some 10000 }).age) ∧
    ((deriveRow { hasAgeGroup := true, hasSpend := true }
        { age_groupRaw := some "45+" }).age_group
      = ageGroupOfAge
          (deriveRow { hasAgeGroup := true, hasSpend := true }
            { age_groupRaw := some "45+" }).age) :=
  ⟨(C3_age_group_recomputed { hasDob := true, hasSpend := true }
      { dobDays := some 10000 }).1 rfl,
   (C3_age_group_recomputed { hasAgeGroup := true, hasSpend := true }
      { age_groupRaw := some "45+" }).2 "45+" rfl rfl rfl (by tauto)⟩

/-! ### C4: the right-closed bins -/

lemma ageGroup_iff_lt20 (a : Int) :
    ageGroupOfAge (some a) = some "<20" ↔ (0 < a ∧ a ≤ 20) := by
  simp only [ageGroupOfAge]
  split_ifs with h1 h2 h3 h4 h5 <;> simp_all

lemma ageGroup_iff_2124 (a : Int) :
    ageGroupOfAge (some a) = some "21-24" ↔ (20 < a ∧ a ≤ 24) := by
  simp only [ageGroupOfAge]
  split_ifs with h1 h2 h3 h4 h5 <;> simp_all

lemma ageGroup_iff_2534 (a : Int) :
    ageGroupOfAge (some a) = some "25-34" ↔ (24 < a ∧ a ≤ 34) := by
  simp only [ageGroupOfAge]
  split_ifs with h1 h2 h3 h4 h5 <;> simp_all
  omega

lemma ageGroup_iff_3545 (a : Int) :
    ageGroupOfAge (some a) = some "35-45" ↔ (34 < a ∧ a ≤ 45) := by
  simp only [ageGroupOfAge]
  split_ifs with h1 h2 h3 h4 h5 <;> simp_all <;> omega

lemma ageGroup_iff_45p (a : Int) :
    ageGroupOfAge (some a) = some "45+" ↔ (45 < a ∧ a ≤ 120) := by
  simp only [ageGroupOfAge]
  split_ifs with h1 h2 h3 h4 h5 <;> simp_all <;> omega

/-- C4 counterexample: an age above the top bin edge 120 (e.g. a
corrupt dob giving age 121) is outside every `pd.cut` interval, so its
age_group is null, not the last bucket 45+. -/
theorem C4_counterexample :
    ageGroupOfAge (some 121) = none ∧ ageGroupOfAge (some 121) ≠ some "45+" := by
  decide

/-- C4 (amended): for a non-null age, `age_group` is `some lab` exactly
when the age lies in the unique right-closed interval of the bin table
carrying `lab` (so age 20 gets `<20`, 24 gets `21-24`, 25 gets
`25-34`); ages above 45 fall in the last bucket only up to the top bin
edge 120; an age above 120, at or below 0, or null yields a null
age_group. -/
theorem C4_right_closed_bins (a : Int) :
    (∀ lo hi lab, (lo, hi, lab) ∈ cutBins →
      ((lo < a ∧ a ≤ hi) ↔ ageGroupOfAge (some a) = some lab)) ∧
    ((a ≤ 0 ∨ 120 < a) → ageGroupOfAge (some a) = none) ∧
    ageGroupOfAge none = none := by
  refine ⟨?_, ?_, rfl⟩
  · intro lo hi lab hmem
    simp only [cutBins, List.mem_cons, List.not_mem_nil, or_false,
      Prod.mk.injEq] at hmem
    rcases hmem with ⟨rfl, rfl, rfl⟩ | ⟨rfl, rfl, rfl⟩ | ⟨rfl, rfl, rfl⟩ |
      ⟨rfl, rfl, rfl⟩ | ⟨rfl, rfl, rfl⟩
    · exact (ageGroup_iff_lt20 a).symm
    · exact (ageGroup_iff_2124 a).symm
    · exact (ageGroup_iff_2534 a).symm
    · exact (ageGroup_iff_3545 a).symm
    · exact (ageGroup_iff_45p a).symm
  · intro h
    simp only [ageGroupOfAge]
    split_ifs <;> first | rfl | omega

/-- Witness for C4: age 25 is in the interval (24, 34] of bucket 25-34,
and the theorem instantiated there computes that bucket. -/
theorem C4_right_closed_bins_witness :
    ageGroupOfAge (some 25) = some "25-34" :=
  ((C4_right_closed_bins 25).1 24 34 "25-34" (by decide)).mp (by decide)

/-! ### C5: tolerance of missing source columns in the derivation stage -/

/-- C5 counterexample: a merged frame with no spend column.  The age,
age_group and marital computations are skipped without error, but line
87 (`df[spend] = pd.to_numeric(df[spend], ...)`) accesses the spend
column unconditionally: the stage raises, the pipeline does not
complete. -/
theorem C5_counterexample :
    deriveStage { hasDob := true } ([{}] : List Row)
      = Except.error "KeyError: spend" := rfl

/-- C5 (amended): the age, age-group and marital-status computations
are each guarded by a column-presence test and are skipped (their field
left null or absent) without error when a source column is missing, and
the currency conversion always has its source; but the spend coercion
requires the spend column, so the derivation stage completes exactly
when the spend column is present — and then for every combination of
present and absent dob / age-group / age / marital columns, with no
record dropped. -/
theorem C5_missing_columns (sch : Schema) (rows : List Row)
    (hs : sch.hasSpend = true) :
    deriveStage sch rows = .ok (outSchema sch, rows.map (deriveRow sch)) ∧
    (rows.map (deriveRow sch)).length = rows.length := by
  refine ⟨?_, by simp⟩
  simp [deriveStage, hs]

/-- Witness for C5: a one-row frame having only the spend column (all
of dob, age-group, age, marital absent) passes the derivation stage. -/
theorem C5_missing_columns_witness :
    deriveStage { hasSpend := true } ([{}] : List Row)
        = .ok (outSchema { hasSpend := true },
            ([{}] : List Row).map (deriveRow { hasSpend := true })) ∧
    (([{}] : List Row).map (deriveRow { hasSpend := true })).length
        = ([{}] : List Row).length :=
  C5_missing_columns { hasSpend := true } ([{}] : List Row) rfl

/-! ### C6: absent optional dimensions in charts and filters -/

/-- C6 counterexample: a table with city, occupation and category
present but no marital-status column.  The Spend-by-Marital-Status
page's groupby names the column without a presence guard, so the
feature is not omitted: it raises. -/
theorem C6_counterexample :
    maritalPage { hasCity := true, hasOccupation := true, hasCategory := true } []
      = Except.error "KeyError" := rfl

/-- C6 (amended): the gender and payment-type charts are guarded by
column-presence tests and are silently omitted when their column is
absent, and the city / occupation / category sidebar filters are
likewise guarded; but the Spend-by-Marital-Status page's four-column
groupby and the Total-Spend-by-Occupation page's groupby are unguarded
and raise a KeyError when the marital-status (resp. occupation) column
is absent. -/
theorem C6_absent_dimension (s : ESchema) (rows : List FRow) :
    (s.hasGender = false → genderPage s rows = none) ∧
    (s.hasPaymentType = false → paymentPage s rows = .ok none) ∧
    (s.hasMarital = false → maritalPage s rows = .error "KeyError") ∧
    (s.hasOccupation = false →
      occupationPage s rows = .error "KeyError: occupation") := by
  refine ⟨fun hg => ?_, fun hp => ?_, fun hm => ?_, fun ho => ?_⟩
  · simp [genderPage, hg]
  · simp [paymentPage, hp]
  · simp [maritalPage, hm]
  · simp [occupationPage, ho]

/-- Witness for C6: on the empty schema (every optional column absent)
the guarded pages are omitted and the unguarded pages raise. -/
theorem C6_absent_dimension_witness :
    genderPage {} [] = none ∧
    paymentPage {} [] = .ok none ∧
    maritalPage {} [] = .error "KeyError" ∧
    occupationPage {} [] = .error "KeyError: occupation" := by
  obtain ⟨h1, h2, h3, h4⟩ := C6_absent_dimension {} []
  exact ⟨h1 rfl, h2 rfl, h3 rfl, h4 rfl⟩

/-! ### C7: the coarse-label lookup table -/

/-- C7 counterexample: the static lookup of `load_data` contains only
the key 35-45, so the label 35-44 is unrecognized and maps to null, not
to 39. -/
theorem C7_counterexample :
    ageFromLabel "35-44" = none ∧ ageFromLabel "35-44" ≠ some 39 := by
  decide

/-- C7 (amended): the lookup maps 21-24 to 22, 25-34 to 29, 35-45 to
39 and 45+ to 50; every other label — including 35-44 — maps to
null. -/
theorem C7_label_lookup :
    ageFromLabel "21-24" = some 22 ∧ ageFromLabel "25-34" = some 29 ∧
    ageFromLabel "35-45" = some 39 ∧ ageFromLabel "45+" = some 50 ∧
    ageFromLabel "35-44" = none ∧
    ∀ lab : String, ageFromLabel lab = none ∨
      lab = "21-24" ∨ lab = "25-34" ∨ lab = "35-45" ∨ lab = "45+" := by
  refine ⟨rfl, rfl, rfl, rfl, rfl, ?_⟩
  intro lab
  unfold ageFromLabel
  split_ifs with h1 h2 h3 h4 <;> tauto

/-! ### C8: the INR conversion column -/

/-- C8 (confirmed): every record of the converted table carries a
spend_inr field equal to spend times the fixed constant 83, and the
conversion adds the column to every record (row count preserved).
(The embedding computes in ℚ, where the product is exact.) -/
theorem C8_spend_inr (rows : List ERow) (fr : FRow)
    (h : fr ∈ addSpendInr rows) :
    fr.spend_inr = fr.row.spend * 83 ∧ (addSpendInr rows).length = rows.length := by
  refine ⟨?_, by simp [addSpendInr]⟩
  obtain ⟨r, _, rfl⟩ := List.mem_map.mp h
  rfl

/-- Witness for C8: the conversion of a one-row table with spend 2
yields spend_inr 166. -/
theorem C8_spend_inr_witness :
    ({ row := { spend := 2 }, spend_inr := 166 } : FRow).spend_inr
        = ({ row := { spend := 2 }, spend_inr := 166 } : FRow).row.spend * 83 ∧
    (addSpendInr [{ spend := 2 }]).length = ([{ spend := 2 }] : List ERow).length :=
  C8_spend_inr [{ spend := 2 }] { row := { spend := 2 }, spend_inr := 166 }
    (by simp [addSpendInr, USD_TO_INR]; norm_num)

/-! ### C9: unparsable spend values -/

/-- C9 (confirmed): a record whose spend cell is unparsable (parse
result NaN, e.g. the string N/A) gets coerced spend exactly 0 — the
field is total, so never null, and ℚ has no NaN to propagate — the
record survives the stage, adds one to the row-count aggregate and adds
nothing to the spend-sum aggregate. -/
theorem C9_unparsable_spend (sch : Schema) (r : Row) (rows : List Row)
    (hs : sch.hasSpend = true) (hr : r.spendRaw = none) :
    (deriveRow sch r).spend = 0 ∧
    deriveStage sch (r :: rows)
      = .ok (outSchema sch, (r :: rows).map (deriveRow sch)) ∧
    countAgg ((r :: rows).map (deriveRow sch))
      = countAgg (rows.map (deriveRow sch)) + 1 ∧
    totalSpend ((r :: rows).map (deriveRow sch))
      = totalSpend (rows.map (deriveRow sch)) := by
  refine ⟨?_, by simp [deriveStage, hs], by simp [countAgg], ?_⟩
  · simp [deriveRow, hr]
  · simp [totalSpend, deriveRow, hr]

/-- Witness for C9: a single all-null record (spend cell unparsable)
coerces to spend 0, passes the stage, counts one row, sums to the same
total as without it. -/
theorem C9_unparsable_spend_witness :
    (deriveRow { hasSpend := true } {}).spend = 0 ∧
    deriveStage { hasSpend := true } ([{}] : List Row)
      = .ok (outSchema { hasSpend := true },
          ([{}] : List Row).map (deriveRow { hasSpend := true })) ∧
    countAgg (([{}] : List Row).map (deriveRow { hasSpend := true }))
      = countAgg (([] : List Row).map (deriveRow { hasSpend := true })) + 1 ∧
    totalSpend (([{}] : List Row).map (deriveRow { hasSpend := true }))
      = totalSpend (([] : List Row).map (deriveRow { hasSpend := true })) :=
  C9_unparsable_spend { hasSpend := true } {} [] rfl rfl

/-! ### C10: birth dates in the future -/

/-- C10 (confirmed): a record whose dob parses to a date strictly after
today has a negative day count `d`, so its age is the negative integer
`d.fdiv 365` (pandas floor division), not null; its age_group is null
(a negative age is in no `pd.cut` interval); the derivation stage drops
no record; and the negative age lower-bounds the age slider: the
computed slider minimum is at most this age, hence itself negative. -/
theorem C10_future_dob (sch : Schema) (r : Row) (d : Int) (rows : List Row)
    (erows : List ERow) (m : Int)
    (hdob : sch.hasDob = true) (hr : r.dobDays = some d) (hd : d < 0)
    (hmem : deriveRow sch r ∈ erows)
    (hmin : listMin (ageList erows) = some m) :
    (deriveRow sch r).age = some (Int.fdiv d 365) ∧
    Int.fdiv d 365 < 0 ∧
    (deriveRow sch r).age_group = none ∧
    (rows.map (deriveRow sch)).length = rows.length ∧
    m ≤ Int.fdiv d 365 ∧ m < 0 := by
  have hneg : Int.fdiv d 365 < 0 := Int.fdiv_neg' hd (by norm_num)
  have hage : (deriveRow sch r).age = some (Int.fdiv d 365) := by
    simp [deriveRow, deriveAge, hdob, hr]
  have hle : m ≤ Int.fdiv d 365 := by
    have hmem2 : Int.fdiv d 365 ∈ ageList erows :=
      List.mem_filterMap.mpr ⟨deriveRow sch r, hmem, hage⟩
    cases l0 : ageList erows with
    | nil => rw [l0] at hmem2; cases hmem2
    | cons x xs =>
      rw [l0] at hmin hmem2
      simp only [listMin, Option.some.injEq] at hmin
      rw [← hmin]
      exact listMin_le hmem2
  refine ⟨hage, hneg, ?_, by simp, hle, lt_of_le_of_lt hle hneg⟩
  have hda : deriveAge sch r = some (Int.fdiv d 365) := by
    simp [deriveAge, hdob, hr]
  simp only [deriveRow, deriveAgeGroup, hdob, if_true]
  rw [hda]
  simp only [ageGroupOfAge]
  split_ifs <;> first | rfl | omega

/-- Witness for C10: dob one day in the future gives day count -1, age
-1, null age_group, and slider minimum -1, which is negative. -/
theorem C10_future_dob_witness :
    (deriveRow { hasDob := true } { dobDays := some (-1) }).age
        = some (Int.fdiv (-1) 365) ∧
    Int.fdiv (-1) 365 < 0 ∧
    (deriveRow { hasDob := true } { dobDays := some (-1) }).age_group = none ∧
    (([] : List Row).map (deriveRow { hasDob := true })).length
        = ([] : List Row).length ∧
    (-1 : Int) ≤ Int.fdiv (-1) 365 ∧ (-1 : Int) < 0 :=
  C10_future_dob { hasDob := true } { dobDays := some (-1) } (-1) []
    [deriveRow { hasDob := true } { dobDays := some (-1) }] (-1)
    rfl rfl (by decide) (by simp) (by decide)

end Banking
